import Mathlib

/-!
Verification development for the Jira issue-creation core of the Turtles
repository.  The definitions below are a shallow embedding of the Python
code in `app/services/jira.py` and `jira_app/services/jira.py` (the two
near-identical client variants), together with the pieces of the HTTP
route in `app/api/routers/tasks.py` that the claims mention.

Modelling conventions:
* Python strings are Lean `String`; character-level operations
  (`strip`, `lower`, `split`, `isalnum`) are reimplemented over
  `List Char` with ASCII semantics (the repository only exercises
  ASCII metadata names; Lean's `Char.toLower`/`Char.isAlphanum` are
  ASCII-only, which matches every input mentioned by the spec).
* Python `None`-able values are `Option`; Python truthiness of an
  optional string is `strTruthy` / `pyFalsy` below.
* `dict.get` with a default is `Option.getD`; an insertion-ordered
  Python dict built by comprehension (where later duplicate keys
  overwrite earlier ones) is modelled by searching the reversed
  association list (`normalized_lookup`).
* Each `raise HTTPException(...)` site is a constructor of `JiraError`,
  named after the specification's error taxonomy; constructors carry the
  data the corresponding Python detail string is formatted from.
* Network effects are passed in as explicit values: a provider function
  for the createmeta calls, an `Except` outcome for the field-schema
  fetch, and per-step outcomes for the assignee search cascade.
-/

/-- Python `c.isspace()` on the ASCII whitespace characters that
`str.strip` and `str.split()` treat as separators. -/
def isWsChar (c : Char) : Bool :=
  c == ' ' || c == '\t' || c == '\n' || c == '\r'

/-- Drops leading whitespace characters, the one-sided half of Python
`str.strip()`. -/
def dropLeadingWs : List Char → List Char
  | [] => []
  | c :: cs => if isWsChar c then dropLeadingWs cs else c :: cs

/-- Python `str.strip()` over the character list: whitespace removed from
both ends. -/
def pyStripChars (cs : List Char) : List Char :=
  ((dropLeadingWs (dropLeadingWs cs).reverse)).reverse

/-- Python `s.strip()` on a string. -/
def pyStrip (s : String) : String :=
  String.mk (pyStripChars s.data)

/-- Python `s.lower()` (ASCII case folding, matching `Char.toLower`). -/
def pyLower (s : String) : String :=
  String.mk (s.data.map Char.toLower)

/-- Python `s.strip().lower()`, the comparison key used by the exact
case-insensitive matching tiers. -/
def pyStripLower (s : String) : String :=
  String.mk ((pyStripChars s.data).map Char.toLower)

/-- Accumulating splitter behind `pySplitWs`: the first argument is the
remaining input, the second the current token read so far (reversed). -/
def splitWsAux : List Char → List Char → List (List Char)
  | [], acc => if acc.isEmpty then [] else [acc.reverse]
  | c :: cs, acc =>
    if isWsChar c then
      if acc.isEmpty then splitWsAux cs [] else acc.reverse :: splitWsAux cs []
    else splitWsAux cs (c :: acc)

/-- Python `s.split()` with no separator: splits on whitespace runs and
drops empty tokens. -/
def pySplitWs (s : String) : List String :=
  (splitWsAux s.data []).map String.mk

/-- Python `" ".join(s.split())`: collapse internal whitespace runs to a
single space and trim the ends. -/
def collapseWs (s : String) : String :=
  String.intercalate " " (pySplitWs s)

/-- Python `pattern in s`-free single-character `str.replace` used by the
normalizers: every `_` and `-` becomes a space. -/
def underscoreHyphenToSpace (s : String) : String :=
  String.mk (s.data.map fun c => if c == '_' || c == '-' then ' ' else c)

/-- Shared preamble of both normalizers (`jira.py` lines 21-24 and
154-156): strip, lowercase, map `_`/`-` to spaces, collapse whitespace. -/
def canonToken (name : String) : String :=
  collapseWs (underscoreHyphenToSpace (pyLower (pyStrip name)))

/-- Embeds `JiraMCPClient._normalize_issuetype_name` (`jira.py` 19-29).
The Python parameter is a `str` and every call site passes `name or ""`
for optional values, so the Lean version takes a `String`. -/
def normalize_issuetype_name (name : String) : String :=
  let s := canonToken name
  if s == "user story" || s == "story" then "story"
  else if s == "sub task" || s == "subtask" then "sub-task"
  else s

/-- Embeds `JiraMCPClient._normalize_priority_name` (`jira.py` 152-167). -/
def normalize_priority_name (name : String) : String :=
  let s := canonToken name
  if s == "p0" || s == "blocker" || s == "critical" || s == "urgent" then "highest"
  else if s == "p1" || s == "major" then "high"
  else if s == "p2" || s == "normal" then "medium"
  else if s == "p3" || s == "minor" then "low"
  else if s == "p4" || s == "trivial" then "lowest"
  else s

/-- Python truthiness of an optional string: `None` and `""` are falsy. -/
def strTruthy : Option String → Bool
  | none => false
  | some s => !(s == "")

/-- Python `not x` on an optional string (`if not requested_issue_type`). -/
def pyFalsy (s : Option String) : Bool :=
  !(strTruthy s)

/-- One entry of the `available` list in `_resolve_issue_type_payload`
(`jira.py` line 61): the triple `(it.get("id"), it.get("name"),
it.get("subtask", False))` extracted from a provider issue-type record. -/
structure IssueTypeDescriptor where
  id : Option String
  name : Option String
  subtask : Bool
deriving Repr, DecidableEq

/-- The `{"id": iid}` payload dictionaries built by the resolvers; the id
comes from a provider record and may be absent there. -/
structure IdPayload where
  id : Option String
deriving Repr, DecidableEq

/-- The distinct `raise HTTPException(...)` sites of the client, named
after the specification's error taxonomy.  Each constructor carries the
data its Python detail string is formatted from. -/
inductive JiraError where
  | metadataUnavailable (status : Nat) (detail : String)
  | projectNotFound (projectKey : String)
  | noIssueTypesAvailable
  | invalidIssueType (requested : String) (validNames : List String)
  | issueCreationFailed (status : Nat) (detail : String)
deriving Repr, DecidableEq

/-- Lookup in the Python dict comprehension `normalized_map` of
`choose_default` (`jira.py` line 65).  A dict built by comprehension
keeps the last binding for a duplicated key, so the lookup scans the
reversed descriptor list. -/
def normalized_lookup (available : List IssueTypeDescriptor) (key : String) :
    Option IssueTypeDescriptor :=
  available.reverse.find? fun d => normalize_issuetype_name (d.name.getD "") == key

/-- The preferred default order tried by `choose_default`. -/
def preferred_order : List String := ["task", "bug", "story", "epic"]

/-- First loop of `choose_default` (`jira.py` 66-69): walk the preferred
names and return the mapped descriptor when it exists and is not a
subtask; a subtask hit is skipped, not returned. -/
def choose_default_preferred (available : List IssueTypeDescriptor) :
    List String → Option IdPayload
  | [] => none
  | p :: ps =>
    match normalized_lookup available p with
    | some d => if d.subtask then choose_default_preferred available ps else some ⟨d.id⟩
    | none => choose_default_preferred available ps

/-- Embeds `choose_default` (`jira.py` 63-76): preferred names first,
then the first non-subtask descriptor in provider order, then the first
descriptor regardless, and `none` only for an empty list. -/
def choose_default (available : List IssueTypeDescriptor) : Option IdPayload :=
  match choose_default_preferred available preferred_order with
  | some p => some p
  | none =>
    match available.find? (fun d => !d.subtask) with
    | some d => some ⟨d.id⟩
    | none =>
      match available with
      | d :: _ => some ⟨d.id⟩
      | [] => none

/-- First matching tier of `_resolve_issue_type_payload` (`jira.py`
86-88): a truthy name that equals the request after `strip().lower()`. -/
def exact_name_match (requested : String) (d : IssueTypeDescriptor) : Bool :=
  strTruthy d.name && (pyStripLower (d.name.getD "") == pyStripLower requested)

/-- Second matching tier (`jira.py` 90-92): equal normalized tokens. -/
def normalized_name_match (requested : String) (d : IssueTypeDescriptor) : Bool :=
  normalize_issuetype_name (d.name.getD "") == normalize_issuetype_name requested

/-- The `valid_names` list of `jira.py` line 98: the truthy names. -/
def truthy_names (available : List IssueTypeDescriptor) : List String :=
  available.filterMap fun d => if strTruthy d.name then d.name else none

/-- Branch of `_resolve_issue_type_payload` taken for a truthy request
(`jira.py` 84-99): exact tier, then normalized tier, then the default
policy, and finally `InvalidIssueType` with the valid names. -/
def resolve_issue_type_requested (available : List IssueTypeDescriptor)
    (requested : String) : Except JiraError IdPayload :=
  match available.find? (exact_name_match requested) with
  | some d => .ok ⟨d.id⟩
  | none =>
    match available.find? (normalized_name_match requested) with
    | some d => .ok ⟨d.id⟩
    | none =>
      match choose_default available with
      | some p => .ok p
      | none => .error (.invalidIssueType requested (truthy_names available))

/-- Embeds `_resolve_issue_type_payload` (`jira.py` 59-99) as a function
of the fetched descriptor list.  A falsy request (absent or empty) takes
the default policy directly and raises `NoIssueTypesAvailable` when the
policy yields nothing (`jira.py` 78-82). -/
def resolve_issue_type_payload (available : List IssueTypeDescriptor)
    (requested : Option String) : Except JiraError IdPayload :=
  if pyFalsy requested then
    match choose_default available with
    | some p => .ok p
    | none => .error .noIssueTypesAvailable
  else
    resolve_issue_type_requested available (requested.getD "")

/-- One entry of the `allowedValues` list of the priority field
(`jira.py` 183-191): a provider record with optional id and name. -/
structure AllowedValue where
  id : Option String
  name : Option String
deriving Repr, DecidableEq

/-- The priority field descriptor as consumed by the resolver: its
`allowedValues` list, with `pr_field.get("allowedValues") or []` folded
into the list itself. -/
structure PriorityField where
  allowedValues : List AllowedValue
deriving Repr, DecidableEq

/-- The field mapping returned by `_get_createmeta_fields`, restricted to
the one key the resolver reads.  `fields.get("priority")` giving `None`
(or an absent key) is `none`; a present-but-empty dict, also falsy in
Python, behaves exactly like an empty `allowedValues` list and needs no
separate representation. -/
structure FieldSchema where
  priority : Option PriorityField
deriving Repr, DecidableEq

/-- First priority tier (`jira.py` 183-186): allowed value whose
`(name or "").strip().lower()` equals the lowered stripped request. -/
def exact_priority_match (requested : String) (v : AllowedValue) : Bool :=
  pyStripLower (v.name.getD "") == pyStripLower requested

/-- Second priority tier (`jira.py` 188-191): equal normalized tokens. -/
def normalized_priority_match (requested : String) (v : AllowedValue) : Bool :=
  normalize_priority_name (v.name.getD "") == normalize_priority_name requested

/-- Matching part of `_resolve_priority_payload` (`jira.py` 172-193),
reached once a truthy request is present and the field schema has been
fetched: missing priority field or empty allowed values give `none`,
then the exact tier, the normalized tier, and `none` as the final
fallback. -/
def resolve_priority_requested (fields : FieldSchema) (requested : String) :
    Option IdPayload :=
  match fields.priority with
  | none => none
  | some pf =>
    if pf.allowedValues.isEmpty then none
    else
      match pf.allowedValues.find? (exact_priority_match requested) with
      | some v => some ⟨v.id⟩
      | none =>
        match pf.allowedValues.find? (normalized_priority_match requested) with
        | some v => some ⟨v.id⟩
        | none => none

/-- Embeds `_resolve_priority_payload` (`jira.py` 169-193).  The falsy
request test precedes the field-schema fetch, so an absent request never
touches the network; `fetched` is the outcome of the awaited
`_get_createmeta_fields` call, which propagates its own failures. -/
def resolve_priority_payload (fetched : Except JiraError FieldSchema)
    (requested : Option String) : Except JiraError (Option IdPayload) :=
  if pyFalsy requested then .ok none
  else do
    let fields ← fetched
    pure (resolve_priority_requested fields (requested.getD ""))

/-- One provider user record as consumed by `pick_best`
(`jira_app/services/jira.py` 209-232). -/
structure UserRecord where
  accountId : Option String
  emailAddress : Option String
  displayName : Option String
deriving Repr, DecidableEq

/-- Character-list test behind `py_starts_with`; the first argument is
the candidate pattern. -/
def listStartsWith : List Char → List Char → Bool
  | [], _ => true
  | _ :: _, [] => false
  | c :: cs, d :: ds => (c == d) && listStartsWith cs ds

/-- Python `s.startswith(pat)`. -/
def py_starts_with (s pat : String) : Bool :=
  listStartsWith pat.data s.data

/-- Tier 1 of `pick_best` (`jira_app` 213-215): stripped account id equal
to the identifier. -/
def acct_match (identifier : String) (u : UserRecord) : Bool :=
  pyStrip (u.accountId.getD "") == identifier

/-- Tier 2 (`jira_app` 217-220): non-empty stripped lowered email equal
to the lowered identifier. -/
def email_match (identifier : String) (u : UserRecord) : Bool :=
  let e := pyStripLower (u.emailAddress.getD "")
  !(e == "") && e == pyLower identifier

/-- Tier 3 (`jira_app` 222-225): non-empty stripped display name equal,
case-insensitively, to the identifier. -/
def display_name_match (identifier : String) (u : UserRecord) : Bool :=
  let nm := pyStrip (u.displayName.getD "")
  !(nm == "") && pyLower nm == pyLower identifier

/-- Tier 4 (`jira_app` 227-230): non-empty stripped display name that
starts, case-insensitively, with the identifier. -/
def display_name_start_match (identifier : String) (u : UserRecord) : Bool :=
  let nm := pyStrip (u.displayName.getD "")
  !(nm == "") && py_starts_with (pyLower nm) (pyLower identifier)

/-- Embeds the inner helper `pick_best` (`jira_app/services/jira.py`
209-232): four sequential passes, then the first candidate's account id
(which may itself be absent). -/
def pick_best (identifier : String) (users : List UserRecord) :
    Option String :=
  match users with
  | [] => none
  | u0 :: _ =>
    match users.find? (acct_match identifier) with
    | some u => u.accountId
    | none =>
      match users.find? (email_match identifier) with
      | some u => u.accountId
      | none =>
        match users.find? (display_name_match identifier) with
        | some u => u.accountId
        | none =>
          match users.find? (display_name_start_match identifier) with
          | some u => u.accountId
          | none => u0.accountId

/-- Outcome of one guarded search request of the assignee cascade: the
surrounding `try` swallows a transport exception, otherwise the provider
answered with a status and a parsed user list (`resp.json() or []`). -/
inductive StepResult where
  | exn
  | http (status : Nat) (users : List UserRecord)
deriving Repr, DecidableEq

/-- Provider-side inputs of `_resolve_assignee_account_id`: the scoped
assignable search, the direct account-id lookup (status only, `none`
when the request raised), and the global user search. -/
structure AssigneeEnv where
  assignableSearch : StepResult
  userLookupStatus : Option Nat
  globalSearch : StepResult
deriving Repr, DecidableEq

/-- Python `identifier and all(ch.isalnum() or ch in {":", "-"} for ch in
identifier)` (`jira_app` line 252). -/
def plausible_account_id (s : String) : Bool :=
  !(s == "") && s.data.all fun c => c.isAlphanum || c == ':' || c == '-'

/-- Result of one search step as used by the cascade: run `pick_best` on
a 200 response and keep only a truthy best (`if best: return best`). -/
def search_step_result (identifier : String) : StepResult → Option String
  | .exn => none
  | .http status users =>
    if status == 200 then
      match pick_best identifier users with
      | some b => if b == "" then none else some b
      | none => none
    else none

/-- Embeds `_resolve_assignee_account_id` (`jira_app/services/jira.py`
195-283): strip the text, bail out on an empty identifier, then the
scoped search, the plausible-account-id verification, and the global
search, returning `none` when every step fails. -/
def resolve_assignee_account_id (env : AssigneeEnv)
    (assigneeText : Option String) : Option String :=
  let identifier := pyStrip (assigneeText.getD "")
  if identifier == "" then none
  else
    match search_step_result identifier env.assignableSearch with
    | some b => some b
    | none =>
      match
        (if plausible_account_id identifier then
          match env.userLookupStatus with
          | some st => if st == 200 then some identifier else none
          | none => none
        else none) with
      | some b => some b
      | none => search_step_result identifier env.globalSearch

/-- Query-parameter form used by a createmeta attempt (`jira.py` 36 and
44): the plural `projectKeys` form first, the singular `projectKey` form
on the retry. -/
inductive ParamForm where
  | projectKeys
  | projectKey
deriving Repr, DecidableEq

/-- One project entry of a createmeta response, reduced to the field the
client reads: its issue-type descriptor list. -/
structure MetaProject where
  issuetypes : List IssueTypeDescriptor
deriving Repr, DecidableEq

/-- A createmeta response: HTTP status, raw text (used in error
messages), and the parsed `projects` list (`data.get("projects", [])`,
with `resp.json() or {}` folded in as an empty list). -/
structure MetaResponse where
  status : Nat
  text : String
  projects : List MetaProject
deriving Repr, DecidableEq

/-- The process-wide `_issuetype_cache`, an association list keyed by
project key. -/
def IssueTypeCache := List (String × List IssueTypeDescriptor)

/-- Membership test and read of the cache (`jira.py` 32-33). -/
def cache_lookup (cache : IssueTypeCache) (k : String) :
    Option (List IssueTypeDescriptor) :=
  (List.find? (fun e => e.1 == k) cache).map (·.2)

/-- Result of one `_get_project_issue_types` run: its outcome, the cache
afterwards, and the createmeta calls that were issued, in order. -/
structure FetchIssueTypes where
  result : Except JiraError (List IssueTypeDescriptor)
  cacheAfter : IssueTypeCache
  calls : List ParamForm

/-- Embeds `_get_project_issue_types` (`jira.py` 31-57).  The provider is
a function from the query-parameter form to the response of the
corresponding GET.  A cache hit answers without any call; otherwise the
plural form is tried, a 200-with-no-projects response triggers exactly
one retry with the singular form, a remaining empty `projects` list is
`ProjectNotFound`, any non-200 status is `MetadataUnavailable` with the
formatted detail, and a success stores the first project's issue types
in the cache. -/
def get_project_issue_types (cache : IssueTypeCache)
    (provider : ParamForm → MetaResponse) (projectKey : String) :
    FetchIssueTypes :=
  match cache_lookup cache projectKey with
  | some v => ⟨.ok v, cache, []⟩
  | none =>
    let r1 := provider .projectKeys
    if r1.status ≠ 200 then
      ⟨.error (.metadataUnavailable r1.status ("Failed to fetch issue types: " ++ r1.text)),
        cache, [.projectKeys]⟩
    else
      match r1.projects with
      | p :: _ =>
        ⟨.ok p.issuetypes, (projectKey, p.issuetypes) :: cache, [.projectKeys]⟩
      | [] =>
        let r2 := provider .projectKey
        if r2.status ≠ 200 then
          ⟨.error (.metadataUnavailable r2.status ("Failed to fetch issue types: " ++ r2.text)),
            cache, [.projectKeys, .projectKey]⟩
        else
          match r2.projects with
          | p :: _ =>
            ⟨.ok p.issuetypes, (projectKey, p.issuetypes) :: cache,
              [.projectKeys, .projectKey]⟩
          | [] =>
            ⟨.error (.projectNotFound projectKey), cache, [.projectKeys, .projectKey]⟩

/-- Parsed body of the create-issue POST response, reduced to the parts
the code reads: `unparseable` is `response.json()` raising, `nonDict` a
parsed body that is not an object, and `dict` an object with the created
issue key, the top-level `errorMessages` list and the `errors`
field-to-message mapping (`none` when absent or not a dict; insertion
order preserved). -/
inductive SubmitBody where
  | unparseable
  | nonDict
  | dict (key : Option String) (errorMessages : List String)
      (errors : Option (List (String × String)))
deriving Repr, DecidableEq

/-- The create-issue POST response: status, parsed body, raw text, and
the transport `reason_phrase`. -/
structure ProviderResponse where
  status : Nat
  body : SubmitBody
  text : String
  reasonPhrase : String
deriving Repr, DecidableEq

/-- Embeds the error-message extraction of `create_issue` (`jira.py`
251-262): the top-level messages followed by every `"field: message"`
entry, joined with `"; "`, or `none` when nothing was collected. -/
def compose_error_detail : SubmitBody → Option String
  | .unparseable => none
  | .nonDict => none
  | .dict _ errorMessages errors =>
    let messages := errorMessages ++
      (match errors with
       | some m => m.map fun kv => kv.1 ++ ": " ++ kv.2
       | none => [])
    if messages.isEmpty then none else some (String.intercalate "; " messages)

/-- Fallback of `jira.py` 264-265: the raw body text, else the transport
status text, else `"Unknown error"`. -/
def error_detail_fallback (resp : ProviderResponse) : String :=
  if !(resp.text == "") then resp.text
  else if !(resp.reasonPhrase == "") then resp.reasonPhrase
  else "Unknown error"

/-- Embeds the submit tail of `create_issue` (`jira.py` 240-270): a 201
returns the parsed body, anything else raises `IssueCreationFailed` with
the provider status and the formatted detail.  (On a 201 whose body does
not parse the Python would propagate a JSON decoding error instead of
returning; no claim exercises that corner.) -/
def create_issue_submit (resp : ProviderResponse) :
    Except JiraError SubmitBody :=
  if resp.status == 201 then .ok resp.body
  else
    let detail := (compose_error_detail resp.body).getD (error_detail_fallback resp)
    .error (.issueCreationFailed resp.status
      ("Failed to create Jira issue (" ++ toString resp.status ++ "): " ++ detail))

/-- Default of the `issue_type` parameter of `create_issue` (`jira.py`
line 200) and of the route's `task_data.get("issue_type", "Task")`. -/
def default_issue_type : String := "Task"

/-- Default of the `priority` parameter of `create_issue` (`jira.py`
line 201) and of the route's `task_data.get("priority", "Medium")`. -/
def default_priority : String := "Medium"

/-- The `fields` dictionary assembled by `create_issue` (`jira.py`
209-238), with each optional entry `none` when the code leaves the key
out.  The description value is the deterministic rich-text envelope
around `descriptionText` and is carried as the raw text. -/
structure IssueFields where
  projectKey : String
  summary : String
  descriptionText : String
  issuetype : IdPayload
  priority : Option IdPayload
  labels : Option (List String)
  components : Option (List String)
  assignee : Option String
deriving Repr, DecidableEq

/-- Provider-side inputs of one `create_issue` run: the createmeta
provider for the issue-type fetch, the outcome of the field-schema fetch
(`_get_createmeta_fields`, modelled abstractly), the three assignee-step
outcomes, and the response to the final POST as a function of the
submitted fields. -/
structure CreateIssueEnv where
  metadata : ParamForm → MetaResponse
  fieldSchema : Except JiraError FieldSchema
  assignableSearch : StepResult
  userLookupStatus : Option Nat
  globalSearch : StepResult
  submit : IssueFields → ProviderResponse

/-- The assignee cascade inputs of an environment. -/
def CreateIssueEnv.assigneeEnv (env : CreateIssueEnv) : AssigneeEnv :=
  ⟨env.assignableSearch, env.userLookupStatus, env.globalSearch⟩

/-- The `if labels:` / `if components:` guards of `jira.py` 233-236: an
absent or empty list leaves the key out. -/
def truthy_list : Option (List String) → Option (List String)
  | none => none
  | some l => if l.isEmpty then none else some l

/-- The `if issuetype_id:` guard of `jira.py` 229-230: the priority
resolver runs only when the resolved issue-type id is truthy; otherwise
the priority entry is simply absent. -/
def priority_for (env : CreateIssueEnv) (issuetypeId : Option String)
    (priority : String) : Except JiraError (Option IdPayload) :=
  if strTruthy issuetypeId then
    resolve_priority_payload env.fieldSchema (some priority)
  else Except.ok none

/-- Payload assembly shared by both `create_issue` variants up to the
assignee field (`jira.py` 195-238 and `jira_app/services/jira.py`
285-330): fetch the issue types, resolve the issue-type payload, resolve
the priority only when the resolved id is truthy, and attach the
optional fields.  Each awaited step propagates its failure, written as
an explicit `Except.bind` chain.  The already computed assignee entry is
passed in, since that is the only line on which the two files differ. -/
def build_issue_fields (env : CreateIssueEnv) (cache : IssueTypeCache)
    (projectKey summary description : String)
    (issue_type priority : String) (labels components : Option (List String))
    (assigneeField : Option String) : Except JiraError IssueFields :=
  ((get_project_issue_types cache env.metadata projectKey).result).bind fun issuetypes =>
    (resolve_issue_type_payload issuetypes (some issue_type)).bind fun issuetype_payload =>
      (priority_for env issuetype_payload.id priority).bind fun priority_payload =>
        Except.ok
          { projectKey := projectKey
            summary := summary
            descriptionText := description
            issuetype := issuetype_payload
            priority := priority_payload
            labels := truthy_list labels
            components := truthy_list components
            assignee := assigneeField }

/-- Assignee entry of the `app/services/jira.py` variant (lines 237-238):
a truthy `assignee` argument is written into the payload verbatim as the
account id, with no provider lookup. -/
def assignee_field_app (assignee : Option String) : Option String :=
  match assignee with
  | none => none
  | some a => if a == "" then none else some a

/-- Assignee entry of the `jira_app/services/jira.py` variant (lines
327-330): a truthy argument goes through the resolver cascade and only a
truthy resolved account id is written. -/
def assignee_field_ja (env : CreateIssueEnv) (assignee : Option String) :
    Option String :=
  match assignee with
  | none => none
  | some a =>
    if a == "" then none
    else
      match resolve_assignee_account_id env.assigneeEnv (some a) with
      | none => none
      | some r => if r == "" then none else some r

/-- Payload assembly of `create_issue` in `app/services/jira.py`
(195-238), with the Python parameter defaults. -/
def create_issue_fields_app (env : CreateIssueEnv) (cache : IssueTypeCache)
    (projectKey summary description : String)
    (issue_type : String := default_issue_type)
    (priority : String := default_priority)
    (labels : Option (List String) := none)
    (components : Option (List String) := none)
    (assignee : Option String := none) : Except JiraError IssueFields :=
  build_issue_fields env cache projectKey summary description issue_type priority
    labels components (assignee_field_app assignee)

/-- Payload assembly of `create_issue` in `jira_app/services/jira.py`
(285-330), with the Python parameter defaults. -/
def create_issue_fields_ja (env : CreateIssueEnv) (cache : IssueTypeCache)
    (projectKey summary description : String)
    (issue_type : String := default_issue_type)
    (priority : String := default_priority)
    (labels : Option (List String) := none)
    (components : Option (List String) := none)
    (assignee : Option String := none) : Except JiraError IssueFields :=
  build_issue_fields env cache projectKey summary description issue_type priority
    labels components (assignee_field_ja env assignee)

/-- Whole `create_issue` of the `jira_app` variant: assemble the payload,
POST it, and translate the response. -/
def create_issue_ja (env : CreateIssueEnv) (cache : IssueTypeCache)
    (projectKey summary description : String)
    (issue_type : String := default_issue_type)
    (priority : String := default_priority)
    (labels : Option (List String) := none)
    (components : Option (List String) := none)
    (assignee : Option String := none) : Except JiraError SubmitBody :=
  (create_issue_fields_ja env cache projectKey summary description issue_type
      priority labels components assignee).bind
    fun fields => create_issue_submit (env.submit fields)

/-- The parsed record handed to the route by the LLM collaborator; every
field the route reads with `task_data.get`, `none` standing for an
absent key. -/
structure ParsedTaskData where
  summary : Option String
  description : Option String
  issue_type : Option String
  priority : Option String
  labels : Option (List String)
  components : Option (List String)
  assignee : Option String
deriving Repr, DecidableEq

/-- The route's `task_data.get("issue_type", "Task")`
(`app/api/routers/tasks.py` line 21). -/
def route_issue_type (td : ParsedTaskData) : String :=
  td.issue_type.getD default_issue_type

/-- The route's `task_data.get("priority", "Medium")`
(`app/api/routers/tasks.py` line 22). -/
def route_priority (td : ParsedTaskData) : String :=
  td.priority.getD default_priority

/-- Python falsiness of the value `normalized_map` gives for a preferred
name: either the key is absent or the mapped descriptor is a subtask.
This is the exact failure condition of one preferred-loop step. -/
def pref_misses (available : List IssueTypeDescriptor) (p : String) : Bool :=
  match normalized_lookup available p with
  | some d => d.subtask
  | none => true

/-- Candidates of both assignee search steps, in step order; the direct
account-id lookup returns no user records. -/
def assignee_env_users (env : AssigneeEnv) : List UserRecord :=
  (match env.assignableSearch with
   | .http _ users => users
   | .exn => []) ++
  (match env.globalSearch with
   | .http _ users => users
   | .exn => [])

/-- Account ids occurring in any user record either search step
returned. -/
def env_user_account_ids (env : AssigneeEnv) : List String :=
  (assignee_env_users env).filterMap (·.accountId)

/-- Condition under which a search step can contribute no candidate: the
request raised, the provider answered non-200, or the user list is
empty. -/
def step_yields_no_candidates : StepResult → Bool
  | .exn => true
  | .http status users => !(status == 200) || users.isEmpty

/-- Every step of the assignee cascade comes up empty: both searches
yield no candidates and the direct lookup does not answer 200. -/
def assignee_unresolvable (env : AssigneeEnv) : Bool :=
  step_yields_no_candidates env.assignableSearch
    && !(env.userLookupStatus == some 200)
    && step_yields_no_candidates env.globalSearch

theorem find?_first_index {α : Type} (p : α → Bool) :
    ∀ (l : List α) (i : Nat) (hi : i < l.length),
    p (l.get ⟨i, hi⟩) = true →
    (∀ j (hj : j < i), p (l.get ⟨j, Nat.lt_trans hj hi⟩) = false) →
    l.find? p = some (l.get ⟨i, hi⟩)
  | [], i, hi, _, _ => absurd hi (by simp)
  | a :: l, 0, _, hp, _ => by
    simpa using List.find?_cons_of_pos l hp
  | a :: l, i + 1, hi, hp, hb => by
    have ha : p a = false := hb 0 (Nat.succ_pos i)
    rw [List.find?_cons_of_neg l (by simp [ha])]
    exact find?_first_index p l i (Nat.lt_of_succ_lt_succ hi) hp
      (fun j hj => hb (j + 1) (Nat.succ_lt_succ hj))

theorem find?_none_of_all {α : Type} {p : α → Bool} {l : List α}
    (h : ∀ x ∈ l, p x = false) : l.find? p = none :=
  List.find?_eq_none.mpr fun x hx => by simp [h x hx]

theorem choose_default_preferred_hit (available : List IssueTypeDescriptor) :
    ∀ (ps : List String) (i : Nat) (hi : i < ps.length) (d : IssueTypeDescriptor),
    normalized_lookup available (ps.get ⟨i, hi⟩) = some d →
    d.subtask = false →
    (∀ j (hj : j < i), pref_misses available (ps.get ⟨j, Nat.lt_trans hj hi⟩) = true) →
    choose_default_preferred available ps = some ⟨d.id⟩
  | [], i, hi, _, _, _, _ => absurd hi (by simp)
  | p :: ps, 0, _, d, hl, hsub, _ => by
    simp only [List.get] at hl
    simp [choose_default_preferred, hl, hsub]
  | p :: ps, i + 1, hi, d, hl, hsub, hb => by
    have h0 := hb 0 (Nat.succ_pos i)
    simp only [List.get] at h0 hl
    unfold choose_default_preferred
    unfold pref_misses at h0
    have rest := choose_default_preferred_hit available ps i (Nat.lt_of_succ_lt_succ hi) d hl
      hsub (fun j hj => hb (j + 1) (Nat.succ_lt_succ hj))
    match hlp : normalized_lookup available p with
    | some d' =>
      rw [hlp] at h0
      simp only [hlp]
      rw [if_pos h0]
      exact rest
    | none =>
      simp only [hlp]
      exact rest

theorem choose_default_preferred_none (available : List IssueTypeDescriptor) :
    ∀ ps : List String,
    (∀ p ∈ ps, pref_misses available p = true) →
    choose_default_preferred available ps = none
  | [], _ => rfl
  | p :: ps, h => by
    have h0 := h p (List.mem_cons_self p ps)
    unfold choose_default_preferred
    unfold pref_misses at h0
    have rest := choose_default_preferred_none available ps
      (fun q hq => h q (List.mem_cons_of_mem p hq))
    match hlp : normalized_lookup available p with
    | some d' =>
      rw [hlp] at h0
      simp only [hlp]
      rw [if_pos h0]
      exact rest
    | none =>
      simp only [hlp]
      exact rest

theorem all_subtask_pref_misses {available : List IssueTypeDescriptor}
    (h : ∀ d ∈ available, d.subtask = true) (p : String) :
    pref_misses available p = true := by
  unfold pref_misses
  match hlp : normalized_lookup available p with
  | some d =>
    have hd : d ∈ available := by
      have := List.mem_of_find?_eq_some hlp
      exact (List.mem_reverse).mp this
    exact h d hd
  | none => rfl

theorem normalized_lookup_mem {available : List IssueTypeDescriptor} {p : String}
    {d : IssueTypeDescriptor} (h : normalized_lookup available p = some d) :
    d ∈ available :=
  (List.mem_reverse).mp (List.mem_of_find?_eq_some h)

theorem choose_default_preferred_mem (available : List IssueTypeDescriptor) :
    ∀ (ps : List String) (q : IdPayload),
    choose_default_preferred available ps = some q →
    ∃ d ∈ available, q = ⟨d.id⟩
  | [], q, h => by simp [choose_default_preferred] at h
  | p :: ps, q, h => by
    unfold choose_default_preferred at h
    split at h
    next d hlp =>
      split at h
      next hsub => exact choose_default_preferred_mem available ps q h
      next hsub => exact ⟨d, normalized_lookup_mem hlp, (Option.some.inj h).symm⟩
    next hlp => exact choose_default_preferred_mem available ps q h

theorem choose_default_mem {available : List IssueTypeDescriptor} {q : IdPayload}
    (h : choose_default available = some q) : ∃ d ∈ available, q = ⟨d.id⟩ := by
  unfold choose_default at h
  split at h
  next p h1 =>
    obtain ⟨d, hd, hp⟩ := choose_default_preferred_mem available preferred_order p h1
    exact ⟨d, hd, (Option.some.inj h).symm.trans hp⟩
  next h1 =>
    split at h
    next d h2 => exact ⟨d, List.mem_of_find?_eq_some h2, (Option.some.inj h).symm⟩
    next h2 =>
      split at h
      next d0 rest => exact ⟨d0, List.mem_cons_self d0 rest, (Option.some.inj h).symm⟩
      next => simp at h

theorem choose_default_cons_ne_none (d0 : IssueTypeDescriptor)
    (rest : List IssueTypeDescriptor) :
    choose_default (d0 :: rest) ≠ none := by
  unfold choose_default
  split
  · simp
  · split
    · simp
    · simp

theorem pyFalsy_some_ne {s : String} (h : s ≠ "") : pyFalsy (some s) = false := by
  simp [pyFalsy, strTruthy, h]

theorem resolve_issue_type_payload_requested (available : List IssueTypeDescriptor)
    {s : String} (h : s ≠ "") :
    resolve_issue_type_payload available (some s)
      = resolve_issue_type_requested available s := by
  simp [resolve_issue_type_payload, pyFalsy_some_ne h]

theorem resolve_priority_payload_requested (fields : FieldSchema)
    {s : String} (h : s ≠ "") :
    resolve_priority_payload (.ok fields) (some s)
      = .ok (resolve_priority_requested fields s) := by
  simp [resolve_priority_payload, pyFalsy_some_ne h]

theorem search_step_none (identifier : String) {s : StepResult}
    (h : step_yields_no_candidates s = true) :
    search_step_result identifier s = none := by
  cases s with
  | exn => rfl
  | http status users =>
    simp only [step_yields_no_candidates, Bool.or_eq_true] at h
    unfold search_step_result
    rcases h with h | h
    · have : (status == 200) = false := by
        cases hb : status == 200 <;> simp [hb] at h ⊢
      simp [this]
    · have : users = [] := List.isEmpty_iff.mp h
      subst this
      cases hb : status == 200 <;> simp [hb, pick_best]

theorem resolve_assignee_none (env : AssigneeEnv)
    (h : assignee_unresolvable env = true) (txt : Option String) :
    resolve_assignee_account_id env txt = none := by
  unfold assignee_unresolvable at h
  simp only [Bool.and_eq_true] at h
  obtain ⟨⟨h1, h2⟩, h3⟩ := h
  unfold resolve_assignee_account_id
  by_cases hid : pyStrip (txt.getD "") = ""
  · simp [hid]
  · have hidb : (pyStrip (txt.getD "") == "") = false := beq_eq_false_iff_ne.mpr hid
    have hs1 := search_step_none (pyStrip (txt.getD "")) h1
    have hs3 := search_step_none (pyStrip (txt.getD "")) h3
    match hst : env.userLookupStatus with
    | none => simp [hidb, hs1, hs3, hst]
    | some st =>
      have hne : (st == 200) = false := by
        cases hb : st == 200
        · rfl
        · exfalso
          have : st = 200 := by simpa using hb
          subst this
          rw [hst] at h2
          simp at h2
      simp [hidb, hs1, hs3, hst, hne]

theorem pick_best_mem {identifier : String} {users : List UserRecord} {r : String}
    (h : pick_best identifier users = some r) :
    ∃ u ∈ users, u.accountId = some r := by
  unfold pick_best at h
  split at h
  next => exact absurd h (by simp)
  next u0 rest =>
    split at h
    next u hf => exact ⟨u, List.mem_of_find?_eq_some hf, h⟩
    next =>
      split at h
      next u hf => exact ⟨u, List.mem_of_find?_eq_some hf, h⟩
      next =>
        split at h
        next u hf => exact ⟨u, List.mem_of_find?_eq_some hf, h⟩
        next =>
          split at h
          next u hf => exact ⟨u, List.mem_of_find?_eq_some hf, h⟩
          next => exact ⟨u0, List.mem_cons_self u0 rest, h⟩

theorem search_step_mem {identifier : String} {status : Nat}
    {users : List UserRecord} {b : String}
    (h : search_step_result identifier (.http status users) = some b) :
    ∃ u ∈ users, u.accountId = some b := by
  simp only [search_step_result] at h
  by_cases hs : (status == 200) = true
  · rw [if_pos hs] at h
    split at h
    next b' hp =>
      split at h
      next => exact absurd h (by simp)
      next =>
        have hbb : b' = b := Option.some.inj h
        subst hbb
        exact pick_best_mem hp
    next => exact absurd h (by simp)
  · rw [if_neg hs] at h
    exact absurd h (by simp)

/-- The synonym inputs the issue-type normalizer recognizes (`jira.py`
25-28). -/
def issue_type_synonyms : List String :=
  ["user story", "story", "sub task", "subtask"]

/-- The synonym inputs the priority normalizer recognizes (`jira.py`
157-166). -/
def priority_synonyms : List String :=
  ["p0", "blocker", "critical", "urgent", "p1", "major", "p2", "normal",
   "p3", "minor", "p4", "trivial"]

/-- Claim C9: on every supported synonym input both normalizers are idempotent,
and every input whose canonical token is not a recognized synonym is
returned trimmed, lowercased and whitespace-collapsed but otherwise
unmapped.  Both functions are plain total Lean functions, hence
deterministic and never failing. -/
theorem claim_C9_normalizers_idempotent_total :
    (∀ x ∈ issue_type_synonyms,
        normalize_issuetype_name (normalize_issuetype_name x)
          = normalize_issuetype_name x)
    ∧ (∀ x ∈ priority_synonyms,
        normalize_priority_name (normalize_priority_name x)
          = normalize_priority_name x)
    ∧ (∀ x : String, canonToken x ∉ issue_type_synonyms →
        normalize_issuetype_name x = canonToken x)
    ∧ (∀ x : String, canonToken x ∉ priority_synonyms →
        normalize_priority_name x = canonToken x) := by
  refine ⟨by decide, by decide, ?_, ?_⟩
  · intro x h
    have f : ∀ y, y ∈ issue_type_synonyms → (canonToken x == y) = false :=
      fun y hy => beq_eq_false_iff_ne.mpr (fun hxy => h (hxy ▸ hy))
    simp [normalize_issuetype_name,
      f "user story" (by decide), f "story" (by decide),
      f "sub task" (by decide), f "subtask" (by decide)]
  · intro x h
    have f : ∀ y, y ∈ priority_synonyms → (canonToken x == y) = false :=
      fun y hy => beq_eq_false_iff_ne.mpr (fun hxy => h (hxy ▸ hy))
    simp [normalize_priority_name,
      f "p0" (by decide), f "blocker" (by decide), f "critical" (by decide),
      f "urgent" (by decide), f "p1" (by decide), f "major" (by decide),
      f "p2" (by decide), f "normal" (by decide), f "p3" (by decide),
      f "minor" (by decide), f "p4" (by decide), f "trivial" (by decide)]

/-- Closed instance of the C9 theorem: idempotence at the synonyms
`"user story"` and `"urgent"`, and canonical pass-through at the
unrecognized input `"Refactor code"`. -/
theorem claim_C9_witness :
    normalize_issuetype_name (normalize_issuetype_name "user story")
        = normalize_issuetype_name "user story"
      ∧ normalize_priority_name (normalize_priority_name "urgent")
        = normalize_priority_name "urgent"
      ∧ normalize_issuetype_name "Refactor code" = canonToken "Refactor code" :=
  ⟨claim_C9_normalizers_idempotent_total.1 "user story" (by decide),
   claim_C9_normalizers_idempotent_total.2.1 "urgent" (by decide),
   claim_C9_normalizers_idempotent_total.2.2.1 "Refactor code" (by decide)⟩

/-- Claim C1: for every non-empty requested issue-type name the resolver tries
the tiers in strict order with the first match winning: the exact
case-insensitive tier over the descriptors in provider order, then the
normalized-token tier, and only when both tiers find nothing does the
result come from the default-selection policy (with `InvalidIssueType`
when that policy yields nothing). -/
theorem claim_C1_issue_type_tier_order
    (available : List IssueTypeDescriptor) (req : String) (hreq : req ≠ "") :
    (∀ i (hi : i < available.length),
        exact_name_match req (available.get ⟨i, hi⟩) = true →
        (∀ j (hj : j < i),
          exact_name_match req (available.get ⟨j, Nat.lt_trans hj hi⟩) = false) →
        resolve_issue_type_payload available (some req)
          = .ok ⟨(available.get ⟨i, hi⟩).id⟩)
    ∧ ((∀ d ∈ available, exact_name_match req d = false) →
       ∀ i (hi : i < available.length),
         normalized_name_match req (available.get ⟨i, hi⟩) = true →
         (∀ j (hj : j < i),
           normalized_name_match req (available.get ⟨j, Nat.lt_trans hj hi⟩) = false) →
         resolve_issue_type_payload available (some req)
           = .ok ⟨(available.get ⟨i, hi⟩).id⟩)
    ∧ ((∀ d ∈ available, exact_name_match req d = false) →
       (∀ d ∈ available, normalized_name_match req d = false) →
       resolve_issue_type_payload available (some req)
         = (match choose_default available with
            | some p => Except.ok p
            | none =>
              Except.error (JiraError.invalidIssueType req (truthy_names available)))) := by
  refine ⟨?_, ?_, ?_⟩
  · intro i hi hp hb
    rw [resolve_issue_type_payload_requested available hreq]
    unfold resolve_issue_type_requested
    rw [find?_first_index (exact_name_match req) available i hi hp hb]
  · intro hex i hi hp hb
    rw [resolve_issue_type_payload_requested available hreq]
    unfold resolve_issue_type_requested
    rw [find?_none_of_all hex,
      find?_first_index (normalized_name_match req) available i hi hp hb]
  · intro hex hnorm
    rw [resolve_issue_type_payload_requested available hreq]
    unfold resolve_issue_type_requested
    rw [find?_none_of_all hex, find?_none_of_all hnorm]

/-- Closed instance of the C1 theorem: the spec's normalized-tier
example, where `"user_story"` matches the descriptor named `"Story"`
after both tiers are consulted in order. -/
theorem claim_C1_witness :
    resolve_issue_type_payload [⟨some "20", some "Story", false⟩] (some "user_story")
      = .ok ⟨some "20"⟩ :=
  (claim_C1_issue_type_tier_order [⟨some "20", some "Story", false⟩] "user_story"
      (by decide)).2.1 (by decide) 0 (by decide) (by decide)
    (fun j hj => absurd hj (Nat.not_lt_zero j))

/-- Counterexample for C3: a project whose only issue type is the
subtask `"Sub-task"` and the unmatched request `"Nonsense"`.  Resolution
does not fail with `InvalidIssueType` listing the available names; the
default policy's all-subtask branch returns the first descriptor's
payload `{id: "11"}`. -/
theorem claim_C3_counterexample :
    resolve_issue_type_payload [⟨some "11", some "Sub-task", true⟩] (some "Nonsense")
      = .ok ⟨some "11"⟩ := rfl

/-- Amended C3: when every issue type of the project is flagged as a
subtask and the non-empty request matches no descriptor in either tier,
resolution still returns the first descriptor via the default policy;
`InvalidIssueType` (with the then-empty name list) occurs only when the
project has no issue types at all. -/
theorem claim_C3_amended (available : List IssueTypeDescriptor) (req : String)
    (hreq : req ≠ "")
    (hexact : ∀ d ∈ available, exact_name_match req d = false)
    (hnorm : ∀ d ∈ available, normalized_name_match req d = false)
    (hsub : ∀ d ∈ available, d.subtask = true) :
    resolve_issue_type_payload available (some req)
      = (match available with
         | d0 :: _ => Except.ok ⟨d0.id⟩
         | [] => Except.error (JiraError.invalidIssueType req [])) := by
  rw [resolve_issue_type_payload_requested available hreq]
  unfold resolve_issue_type_requested
  rw [find?_none_of_all hexact, find?_none_of_all hnorm]
  have hcdp := choose_default_preferred_none available preferred_order
    (fun p _ => all_subtask_pref_misses hsub p)
  have hfind : available.find? (fun d => !d.subtask) = none :=
    find?_none_of_all (fun d hd => by simp [hsub d hd])
  unfold choose_default
  rw [hcdp, hfind]
  cases available with
  | nil => rfl
  | cons d0 rest => rfl

/-- Closed instance of the C3 amended theorem: two subtask-only types and
the unmatched request `"Nonsense"` resolve to the first type's id. -/
theorem claim_C3_witness :
    resolve_issue_type_payload
        [⟨some "11", some "Sub-task", true⟩, ⟨some "12", some "Subtask2", true⟩]
        (some "Nonsense") = .ok ⟨some "11"⟩ :=
  claim_C3_amended
    [⟨some "11", some "Sub-task", true⟩, ⟨some "12", some "Subtask2", true⟩]
    "Nonsense" (by decide) (by decide) (by decide) (by decide)

theorem isEmpty_false_of_lt {α : Type} {l : List α} {i : Nat}
    (hi : i < l.length) : l.isEmpty = false := by
  cases l
  · simp at hi
  · rfl

theorem resolve_priority_requested_no_field {fields : FieldSchema}
    (hp : fields.priority = none) (req : String) :
    resolve_priority_requested fields req = none := by
  unfold resolve_priority_requested
  rw [hp]

theorem resolve_priority_requested_field {fields : FieldSchema}
    {pf : PriorityField} (hp : fields.priority = some pf) (req : String) :
    resolve_priority_requested fields req
      = (if pf.allowedValues.isEmpty then none
         else
           match pf.allowedValues.find? (exact_priority_match req) with
           | some v => some ⟨v.id⟩
           | none =>
             match pf.allowedValues.find? (normalized_priority_match req) with
             | some v => some ⟨v.id⟩
             | none => none) := by
  unfold resolve_priority_requested
  rw [hp]

/-- Claim C2: the default-selection policy tries the preferred names in order
against the last-wins normalized-name map, skipping subtask hits; when no
preferred name maps to a non-subtask descriptor it takes the first
non-subtask descriptor in provider order; when every descriptor is a
subtask it takes the first descriptor; it yields nothing exactly for an
empty descriptor list; and on the spec's example the resolver returns
the id `"10"`. -/
theorem claim_C2_default_selection (available : List IssueTypeDescriptor) :
    (∀ i (hi : i < preferred_order.length) (d : IssueTypeDescriptor),
        normalized_lookup available (preferred_order.get ⟨i, hi⟩) = some d →
        d.subtask = false →
        (∀ j (hj : j < i),
          pref_misses available (preferred_order.get ⟨j, Nat.lt_trans hj hi⟩) = true) →
        choose_default available = some ⟨d.id⟩)
    ∧ ((∀ p ∈ preferred_order, pref_misses available p = true) →
       ∀ i (hi : i < available.length),
         (available.get ⟨i, hi⟩).subtask = false →
         (∀ j (hj : j < i), (available.get ⟨j, Nat.lt_trans hj hi⟩).subtask = true) →
         choose_default available = some ⟨(available.get ⟨i, hi⟩).id⟩)
    ∧ ((∀ p ∈ preferred_order, pref_misses available p = true) →
       (∀ d ∈ available, d.subtask = true) →
       ∀ d0 rest, available = d0 :: rest →
         choose_default available = some ⟨d0.id⟩)
    ∧ (choose_default available = none ↔ available = [])
    ∧ resolve_issue_type_payload
        [⟨some "10", some "Task", false⟩, ⟨some "11", some "Sub-task", true⟩] none
        = .ok ⟨some "10"⟩ := by
  refine ⟨?_, ?_, ?_, ?_, by rfl⟩
  · intro i hi d hl hsub hb
    unfold choose_default
    rw [choose_default_preferred_hit available preferred_order i hi d hl hsub hb]
  · intro hmiss i hi hsub hb
    unfold choose_default
    rw [choose_default_preferred_none available preferred_order hmiss]
    rw [find?_first_index (fun d => !d.subtask) available i hi (by simpa using hsub)
      (fun j hj => by simpa using hb j hj)]
  · intro hmiss hall d0 rest heq
    unfold choose_default
    rw [choose_default_preferred_none available preferred_order hmiss]
    rw [find?_none_of_all (fun d hd => by simp [hall d hd])]
    rw [heq]
  · constructor
    · intro h
      cases available with
      | nil => rfl
      | cons d0 rest => exact absurd h (choose_default_cons_ne_none d0 rest)
    · intro h
      subst h
      rfl

/-- Closed instance of the C2 theorem: `"task"` is the first preferred
name, maps to the non-subtask descriptor `"Task"`, and the policy picks
its id. -/
theorem claim_C2_witness :
    choose_default [⟨some "10", some "Task", false⟩, ⟨some "11", some "Sub-task", true⟩]
      = some ⟨some "10"⟩ :=
  (claim_C2_default_selection
      [⟨some "10", some "Task", false⟩, ⟨some "11", some "Sub-task", true⟩]).1
    0 (by decide) ⟨some "10", some "Task", false⟩ (by decide) rfl
    (fun j hj => absurd hj (Nat.not_lt_zero j))

/-- Claim C4: the priority resolver never errors once the field schema is
available — an absent or empty request answers "no priority" before any
fetch (even a failed one), a schema without a priority field or without
allowed values answers "no priority", otherwise the exact
case-insensitive tier wins first, then the normalized tier, then "no
priority"; and on the spec's example `"urgent"` resolves to the id
`"1"`. -/
theorem claim_C4_priority_resolution :
    (∀ fetched : Except JiraError FieldSchema,
        resolve_priority_payload fetched none = .ok none
        ∧ resolve_priority_payload fetched (some "") = .ok none)
    ∧ (∀ (fields : FieldSchema) (req : Option String),
        ∃ r, resolve_priority_payload (.ok fields) req = .ok r)
    ∧ (∀ req : String, req ≠ "" →
        ∀ fields : FieldSchema, fields.priority = none →
        resolve_priority_payload (.ok fields) (some req) = .ok none)
    ∧ (∀ req : String, req ≠ "" →
        ∀ (fields : FieldSchema) (pf : PriorityField), fields.priority = some pf →
        pf.allowedValues = [] →
        resolve_priority_payload (.ok fields) (some req) = .ok none)
    ∧ (∀ (req : String) (fields : FieldSchema) (pf : PriorityField),
        req ≠ "" → fields.priority = some pf →
        (∀ i (hi : i < pf.allowedValues.length),
            exact_priority_match req (pf.allowedValues.get ⟨i, hi⟩) = true →
            (∀ j (hj : j < i),
              exact_priority_match req (pf.allowedValues.get ⟨j, Nat.lt_trans hj hi⟩) = false) →
            resolve_priority_payload (.ok fields) (some req)
              = .ok (some ⟨(pf.allowedValues.get ⟨i, hi⟩).id⟩))
        ∧ ((∀ v ∈ pf.allowedValues, exact_priority_match req v = false) →
           ∀ i (hi : i < pf.allowedValues.length),
             normalized_priority_match req (pf.allowedValues.get ⟨i, hi⟩) = true →
             (∀ j (hj : j < i),
               normalized_priority_match req (pf.allowedValues.get ⟨j, Nat.lt_trans hj hi⟩) = false) →
             resolve_priority_payload (.ok fields) (some req)
               = .ok (some ⟨(pf.allowedValues.get ⟨i, hi⟩).id⟩))
        ∧ ((∀ v ∈ pf.allowedValues, exact_priority_match req v = false) →
           (∀ v ∈ pf.allowedValues, normalized_priority_match req v = false) →
           resolve_priority_payload (.ok fields) (some req) = .ok none))
    ∧ resolve_priority_requested
        ⟨some ⟨[⟨some "1", some "Highest"⟩, ⟨some "2", some "High"⟩]⟩⟩ "urgent"
        = some ⟨some "1"⟩ := by
  refine ⟨fun fetched => ⟨rfl, rfl⟩, ?_, ?_, ?_, ?_, by rfl⟩
  · intro fields req
    cases hb : pyFalsy req with
    | true =>
      exact ⟨none, by simp [resolve_priority_payload, hb]⟩
    | false =>
      refine ⟨resolve_priority_requested fields (req.getD ""), ?_⟩
      simp [resolve_priority_payload, hb]
  · intro req hreq fields hp
    rw [resolve_priority_payload_requested fields hreq,
      resolve_priority_requested_no_field hp]
  · intro req hreq fields pf hp hempty
    rw [resolve_priority_payload_requested fields hreq,
      resolve_priority_requested_field hp]
    rw [hempty]
    simp
  · intro req fields pf hreq hp
    refine ⟨?_, ?_, ?_⟩
    · intro i hi hm hb
      rw [resolve_priority_payload_requested fields hreq,
        resolve_priority_requested_field hp]
      rw [if_neg (by simp [isEmpty_false_of_lt hi])]
      rw [find?_first_index (exact_priority_match req) pf.allowedValues i hi hm hb]
    · intro hex i hi hm hb
      rw [resolve_priority_payload_requested fields hreq,
        resolve_priority_requested_field hp]
      rw [if_neg (by simp [isEmpty_false_of_lt hi])]
      rw [find?_none_of_all hex]
      rw [find?_first_index (normalized_priority_match req) pf.allowedValues i hi hm hb]
    · intro hex hnorm
      rw [resolve_priority_payload_requested fields hreq,
        resolve_priority_requested_field hp]
      cases he : pf.allowedValues.isEmpty with
      | true => simp [he]
      | false =>
        rw [if_neg (by simp [he])]
        rw [find?_none_of_all hex, find?_none_of_all hnorm]

/-- Closed instance of the C4 theorem: the spec's example, where
`"urgent"` normalizes to `"highest"` and selects the allowed value with
id `"1"` through the normalized tier. -/
theorem claim_C4_witness :
    resolve_priority_payload
        (.ok ⟨some ⟨[⟨some "1", some "Highest"⟩, ⟨some "2", some "High"⟩]⟩⟩)
        (some "urgent") = .ok (some ⟨some "1"⟩) :=
  ((claim_C4_priority_resolution.2.2.2.2.1 "urgent"
      ⟨some ⟨[⟨some "1", some "Highest"⟩, ⟨some "2", some "High"⟩]⟩⟩
      ⟨[⟨some "1", some "Highest"⟩, ⟨some "2", some "High"⟩]⟩
      (by decide) rfl).2.1 (by decide) 0 (by decide) (by decide)
    (fun j hj => absurd hj (Nat.not_lt_zero j)))

theorem except_bind_ok {ε α β : Type} (a : α) (f : α → Except ε β) :
    (Except.ok a >>= f) = f a := rfl

theorem except_bind_error {ε α β : Type} (e : ε) (f : α → Except ε β) :
    ((Except.error e : Except ε α) >>= f) = Except.error e := rfl

theorem except_pure_bind {ε α β : Type} (a : α) (f : α → Except ε β) :
    ((pure a : Except ε α) >>= f) = f a := rfl

theorem except_method_bind_ok {ε α β : Type} (a : α) (f : α → Except ε β) :
    (Except.ok a : Except ε α).bind f = f a := rfl

theorem except_method_bind_error {ε α β : Type} (e : ε) (f : α → Except ε β) :
    (Except.error e : Except ε α).bind f = Except.error e := rfl

theorem build_issue_fields_ok_inv {env : CreateIssueEnv} {cache : IssueTypeCache}
    {pk s d it pr : String} {la co : Option (List String)} {af : Option String}
    {fields : IssueFields}
    (h : build_issue_fields env cache pk s d it pr la co af = .ok fields) :
    ∃ issuetypes,
      (get_project_issue_types cache env.metadata pk).result = .ok issuetypes
      ∧ resolve_issue_type_payload issuetypes (some it) = .ok fields.issuetype
      ∧ (fields.priority = none
         ∨ resolve_priority_payload env.fieldSchema (some pr) = .ok fields.priority)
      ∧ fields.assignee = af := by
  unfold build_issue_fields at h
  cases hres : (get_project_issue_types cache env.metadata pk).result with
  | error e =>
    rw [hres, except_method_bind_error] at h
    exact absurd h (by simp)
  | ok issuetypes =>
    rw [hres, except_method_bind_ok] at h
    cases hit : resolve_issue_type_payload issuetypes (some it) with
    | error e =>
      rw [hit, except_method_bind_error] at h
      exact absurd h (by simp)
    | ok itp =>
      rw [hit, except_method_bind_ok] at h
      cases hpp : priority_for env itp.id pr with
      | error e =>
        rw [hpp, except_method_bind_error] at h
        exact absurd h (by simp)
      | ok pp =>
        rw [hpp, except_method_bind_ok] at h
        have hf := (Except.ok.inj h).symm
        subst hf
        refine ⟨issuetypes, rfl, hit, ?_, rfl⟩
        unfold priority_for at hpp
        by_cases htr : strTruthy itp.id = true
        · rw [if_pos htr] at hpp
          exact Or.inr hpp
        · rw [if_neg htr] at hpp
          exact Or.inl (Except.ok.inj hpp).symm

/-- Claim C5: within any returned candidate list `pick_best` selects by exact
account id first, then exact email, then exact display name, then
display-name start, then the first candidate, always first match within
a tier; and when every cascade step yields no candidates the assignee
stays unresolved, the payload omits the assignee field, and the issue is
still submitted. -/
theorem claim_C5_assignee_candidate_selection :
    (∀ identifier : String, pick_best identifier [] = none)
    ∧ (∀ (identifier : String) (users : List UserRecord),
        (∀ i (hi : i < users.length),
            acct_match identifier (users.get ⟨i, hi⟩) = true →
            (∀ j (hj : j < i),
              acct_match identifier (users.get ⟨j, Nat.lt_trans hj hi⟩) = false) →
            pick_best identifier users = (users.get ⟨i, hi⟩).accountId)
        ∧ ((∀ u ∈ users, acct_match identifier u = false) →
           ∀ i (hi : i < users.length),
             email_match identifier (users.get ⟨i, hi⟩) = true →
             (∀ j (hj : j < i),
               email_match identifier (users.get ⟨j, Nat.lt_trans hj hi⟩) = false) →
             pick_best identifier users = (users.get ⟨i, hi⟩).accountId)
        ∧ ((∀ u ∈ users, acct_match identifier u = false) →
           (∀ u ∈ users, email_match identifier u = false) →
           ∀ i (hi : i < users.length),
             display_name_match identifier (users.get ⟨i, hi⟩) = true →
             (∀ j (hj : j < i),
               display_name_match identifier (users.get ⟨j, Nat.lt_trans hj hi⟩) = false) →
             pick_best identifier users = (users.get ⟨i, hi⟩).accountId)
        ∧ ((∀ u ∈ users, acct_match identifier u = false) →
           (∀ u ∈ users, email_match identifier u = false) →
           (∀ u ∈ users, display_name_match identifier u = false) →
           ∀ i (hi : i < users.length),
             display_name_start_match identifier (users.get ⟨i, hi⟩) = true →
             (∀ j (hj : j < i),
               display_name_start_match identifier (users.get ⟨j, Nat.lt_trans hj hi⟩) = false) →
             pick_best identifier users = (users.get ⟨i, hi⟩).accountId)
        ∧ ((∀ u ∈ users, acct_match identifier u = false) →
           (∀ u ∈ users, email_match identifier u = false) →
           (∀ u ∈ users, display_name_match identifier u = false) →
           (∀ u ∈ users, display_name_start_match identifier u = false) →
           ∀ u0 rest, users = u0 :: rest →
             pick_best identifier users = u0.accountId))
    ∧ (∀ (env : AssigneeEnv) (txt : Option String),
        assignee_unresolvable env = true →
        resolve_assignee_account_id env txt = none)
    ∧ (∀ (env : CreateIssueEnv) (cache : IssueTypeCache)
        (pk s d it pr : String) (la co : Option (List String))
        (a : Option String) (fields : IssueFields),
        assignee_unresolvable env.assigneeEnv = true →
        create_issue_fields_ja env cache pk s d it pr la co a = .ok fields →
        fields.assignee = none
        ∧ create_issue_ja env cache pk s d it pr la co a
            = create_issue_submit (env.submit fields)) := by
  refine ⟨fun identifier => rfl, ?_, fun env txt h => resolve_assignee_none env h txt, ?_⟩
  · intro identifier users
    refine ⟨?_, ?_, ?_, ?_, ?_⟩
    · intro i hi hp hb
      cases users with
      | nil => exact absurd hi (by simp)
      | cons u0 rest =>
        unfold pick_best
        rw [find?_first_index (acct_match identifier) (u0 :: rest) i hi hp hb]
    · intro h1 i hi hp hb
      cases users with
      | nil => exact absurd hi (by simp)
      | cons u0 rest =>
        unfold pick_best
        rw [find?_none_of_all h1,
          find?_first_index (email_match identifier) (u0 :: rest) i hi hp hb]
    · intro h1 h2 i hi hp hb
      cases users with
      | nil => exact absurd hi (by simp)
      | cons u0 rest =>
        unfold pick_best
        rw [find?_none_of_all h1, find?_none_of_all h2,
          find?_first_index (display_name_match identifier) (u0 :: rest) i hi hp hb]
    · intro h1 h2 h3 i hi hp hb
      cases users with
      | nil => exact absurd hi (by simp)
      | cons u0 rest =>
        unfold pick_best
        rw [find?_none_of_all h1, find?_none_of_all h2, find?_none_of_all h3,
          find?_first_index (display_name_start_match identifier) (u0 :: rest) i hi hp hb]
    · intro h1 h2 h3 h4 u0 rest heq
      subst heq
      unfold pick_best
      rw [find?_none_of_all h1, find?_none_of_all h2, find?_none_of_all h3,
        find?_none_of_all h4]
  · intro env cache pk s d it pr la co a fields henv hok
    have hass : assignee_field_ja env a = none := by
      unfold assignee_field_ja
      cases a with
      | none => rfl
      | some x =>
        by_cases hx : x = ""
        · simp [hx]
        · have hr := resolve_assignee_none env.assigneeEnv henv (some x)
          simp [hx, hr]
    unfold create_issue_fields_ja at hok
    obtain ⟨its, _, _, _, hassign⟩ := build_issue_fields_ok_inv hok
    refine ⟨hassign.trans hass, ?_⟩
    unfold create_issue_ja create_issue_fields_ja
    rw [hok, except_method_bind_ok]

/-- Closed instance of the C5 theorem: a concrete environment where the
scoped search answers 200 with no users, the account lookup answers 404
and the global search raises; the assignee `"ghost@example.com"` stays
unresolved, the payload omits the assignee, and the POST still goes
out. -/
theorem claim_C5_witness :
    pick_best "ghost@example.com" [] = none
    ∧ resolve_assignee_account_id
        ⟨.http 200 [], some 404, .exn⟩ (some "ghost@example.com") = none := by
  constructor
  · exact claim_C5_assignee_candidate_selection.1 "ghost@example.com"
  · exact claim_C5_assignee_candidate_selection.2.2.1
      ⟨.http 200 [], some 404, .exn⟩ (some "ghost@example.com") (by decide)

/-- Claim C6: a non-201 provider response fails with `IssueCreationFailed`
carrying the status and the message joined from `errorMessages` plus the
`"field: message"` entries of `errors`, falling back to the raw body
text or transport status text when neither is present; the spec's 400
example composes exactly `"priority: Field priority is required"`, and a
201 returns the provider response body. -/
theorem claim_C6_submit_translation :
    (∀ resp : ProviderResponse, resp.status = 201 →
        create_issue_submit resp = .ok resp.body)
    ∧ (∀ resp : ProviderResponse, resp.status ≠ 201 →
        create_issue_submit resp
          = .error (.issueCreationFailed resp.status
              ("Failed to create Jira issue (" ++ toString resp.status ++ "): "
                ++ ((compose_error_detail resp.body).getD (error_detail_fallback resp)))))
    ∧ (∀ (key : Option String) (ems : List String) (errs : List (String × String)),
        ems ≠ [] ∨ errs ≠ [] →
        compose_error_detail (.dict key ems (some errs))
          = some (String.intercalate "; "
              (ems ++ errs.map fun kv => kv.1 ++ ": " ++ kv.2)))
    ∧ (∀ key : Option String,
        compose_error_detail (.dict key [] none) = none
        ∧ compose_error_detail (.dict key [] (some [])) = none)
    ∧ compose_error_detail SubmitBody.unparseable = none
    ∧ create_issue_submit
        ⟨400, .dict none [] (some [("priority", "Field priority is required")]), "", ""⟩
        = .error (.issueCreationFailed 400
            "Failed to create Jira issue (400): priority: Field priority is required")
    ∧ create_issue_submit ⟨201, .dict (some "PROJ-42") [] none, "", ""⟩
        = .ok (.dict (some "PROJ-42") [] none) := by
  refine ⟨?_, ?_, ?_, fun key => ⟨rfl, rfl⟩, rfl, by rfl, by rfl⟩
  · intro resp h
    simp [create_issue_submit, h]
  · intro resp h
    simp [create_issue_submit, beq_eq_false_iff_ne.mpr h]
  · intro key ems errs hne
    show (if (ems ++ errs.map fun kv => kv.1 ++ ": " ++ kv.2).isEmpty then none
          else some (String.intercalate "; "
            (ems ++ errs.map fun kv => kv.1 ++ ": " ++ kv.2)))
        = some (String.intercalate "; " (ems ++ errs.map fun kv => kv.1 ++ ": " ++ kv.2))
    rw [if_neg (by
      simp only [List.isEmpty_iff, List.append_eq_nil, List.map_eq_nil_iff]
      tauto)]

/-- Closed instance of the C6 theorem: the general non-201 equation
applied at the spec's 400 example. -/
theorem claim_C6_witness :
    create_issue_submit
        ⟨400, .dict none ["whole-issue problem"]
          (some [("priority", "Field priority is required")]), "", ""⟩
      = .error (.issueCreationFailed 400
          ("Failed to create Jira issue (400): "
            ++ "whole-issue problem; priority: Field priority is required")) := by
  have h := claim_C6_submit_translation.2.1
    ⟨400, .dict none ["whole-issue problem"]
      (some [("priority", "Field priority is required")]), "", ""⟩ (by decide)
  rw [h]
  rfl

/-- Environment for the C7 counterexample: a provider that knows one
issue type `"Task"` (id `"10"`), has no priority field, returns an empty
user list from both searches, and answers 404 to the account lookup. -/
def c7_env : CreateIssueEnv where
  metadata := fun _ => ⟨200, "", [⟨[⟨some "10", some "Task", false⟩]⟩]⟩
  fieldSchema := .ok ⟨none⟩
  assignableSearch := .http 200 []
  userLookupStatus := some 404
  globalSearch := .http 200 []
  submit := fun _ => ⟨201, .dict (some "PROJ-1") [] none, "", ""⟩

/-- Counterexample for C7: in the `app/services/jira.py` variant the raw
assignee text `"invented-account-id"` is written into the payload as the
account id although the provider returned no user record at all and the
lookup answered 404, never verifying it — the system does place an id it
never obtained from the provider. -/
theorem claim_C7_counterexample :
    create_issue_fields_app c7_env [] "PROJ" "s" "d" "Task" "Medium" none none
        (some "invented-account-id")
      = .ok { projectKey := "PROJ", summary := "s", descriptionText := "d",
              issuetype := ⟨some "10"⟩, priority := none, labels := none,
              components := none, assignee := some "invented-account-id" }
    ∧ env_user_account_ids c7_env.assigneeEnv = []
    ∧ c7_env.userLookupStatus = some 404 := ⟨rfl, rfl, rfl⟩

/-- Amended C7: the issue-type and priority references placed in the
payload always carry an id of a provider-returned record, and in the
`jira_app` variant the resolved assignee account id is either the id of
a returned user record or the identifier itself after the provider's
account lookup answered 200; the `app` variant, however, copies the raw
assignee request into the payload unverified (see the
counterexample). -/
theorem claim_C7_amended :
    (∀ (available : List IssueTypeDescriptor) (req : Option String) (p : IdPayload),
        resolve_issue_type_payload available req = .ok p →
        ∃ d ∈ available, p = ⟨d.id⟩)
    ∧ (∀ (fields : FieldSchema) (req : String) (p : IdPayload),
        resolve_priority_requested fields req = some p →
        ∃ pf, fields.priority = some pf ∧ ∃ v ∈ pf.allowedValues, p = ⟨v.id⟩)
    ∧ (∀ (env : AssigneeEnv) (txt : Option String) (r : String),
        resolve_assignee_account_id env txt = some r →
        (∃ u ∈ assignee_env_users env, u.accountId = some r)
        ∨ (env.userLookupStatus = some 200 ∧ r = pyStrip (txt.getD ""))) := by
  refine ⟨?_, ?_, ?_⟩
  · intro available req p h
    unfold resolve_issue_type_payload at h
    split at h
    · split at h
      next q hq => exact (Except.ok.inj h) ▸ choose_default_mem hq
      next => exact absurd h (by simp)
    · unfold resolve_issue_type_requested at h
      split at h
      next d hf => exact ⟨d, List.mem_of_find?_eq_some hf, (Except.ok.inj h).symm⟩
      next =>
        split at h
        next d hf => exact ⟨d, List.mem_of_find?_eq_some hf, (Except.ok.inj h).symm⟩
        next =>
          split at h
          next q hq => exact (Except.ok.inj h) ▸ choose_default_mem hq
          next => exact absurd h (by simp)
  · intro fields req p h
    unfold resolve_priority_requested at h
    split at h
    next => exact absurd h (by simp)
    next pf hp =>
      split at h
      next => exact absurd h (by simp)
      next =>
        split at h
        next v hf =>
          exact ⟨pf, hp, v, List.mem_of_find?_eq_some hf, (Option.some.inj h).symm⟩
        next =>
          split at h
          next v hf =>
            exact ⟨pf, hp, v, List.mem_of_find?_eq_some hf, (Option.some.inj h).symm⟩
          next => exact absurd h (by simp)
  · intro env txt r h
    simp only [resolve_assignee_account_id] at h
    by_cases hid : (pyStrip (txt.getD "") == "") = true
    · rw [if_pos hid] at h
      exact absurd h (by simp)
    · rw [if_neg hid] at h
      split at h
      next b h1 =>
        have hb : b = r := Option.some.inj h
        subst hb
        left
        cases hs : env.assignableSearch with
        | exn =>
          rw [hs] at h1
          exact absurd h1 (by simp [search_step_result])
        | http st us =>
          rw [hs] at h1
          obtain ⟨u, hu, huid⟩ := search_step_mem h1
          exact ⟨u, by simp [assignee_env_users, hs, hu], huid⟩
      next h1 =>
        split at h
        next b h2 =>
          have hb : b = r := Option.some.inj h
          subst hb
          right
          split at h2
          next hpl =>
            split at h2
            next st hst =>
              split at h2
              next h200 =>
                refine ⟨?_, (Option.some.inj h2).symm⟩
                rw [hst]
                have : st = 200 := by simpa using h200
                rw [this]
              next => exact absurd h2 (by simp)
            next => exact absurd h2 (by simp)
          next => exact absurd h2 (by simp)
        next h2 =>
          left
          cases hs : env.globalSearch with
          | exn =>
            rw [hs] at h
            exact absurd h (by simp [search_step_result])
          | http st us =>
            rw [hs] at h
            obtain ⟨u, hu, huid⟩ := search_step_mem h
            exact ⟨u, by simp [assignee_env_users, hs, hu], huid⟩

/-- Closed instance of the C7 amended theorem: the resolved issue-type
payload id `"10"` belongs to a descriptor of the fetched list. -/
theorem claim_C7_witness :
    ∃ d ∈ [(⟨some "10", some "Task", false⟩ : IssueTypeDescriptor)],
      (⟨some "10"⟩ : IdPayload) = ⟨d.id⟩ :=
  claim_C7_amended.1 [⟨some "10", some "Task", false⟩] (some "Task") ⟨some "10"⟩ rfl

theorem get_project_issue_types_hit {cache : IssueTypeCache} {pk : String}
    {v : List IssueTypeDescriptor} (h : cache_lookup cache pk = some v)
    (provider : ParamForm → MetaResponse) :
    get_project_issue_types cache provider pk = ⟨.ok v, cache, []⟩ := by
  simp only [get_project_issue_types, h]

theorem get_project_issue_types_ok_inv {cache : IssueTypeCache}
    {provider : ParamForm → MetaResponse} {pk : String}
    {v : List IssueTypeDescriptor}
    (hv : (get_project_issue_types cache provider pk).result = .ok v) :
    cache_lookup (get_project_issue_types cache provider pk).cacheAfter pk
      = some v := by
  cases hc : cache_lookup cache pk with
  | some w =>
    have he := get_project_issue_types_hit hc provider
    rw [he] at hv
    have hw : w = v := Except.ok.inj hv
    subst hw
    rw [he]
    exact hc
  | none =>
    by_cases h1 : (provider ParamForm.projectKeys).status ≠ 200
    · have he : get_project_issue_types cache provider pk
          = ⟨.error (.metadataUnavailable (provider ParamForm.projectKeys).status
              ("Failed to fetch issue types: " ++ (provider ParamForm.projectKeys).text)),
             cache, [.projectKeys]⟩ := by
        simp only [get_project_issue_types, hc]
        rw [if_pos h1]
      rw [he] at hv
      exact absurd hv (by simp)
    · cases hp1 : (provider ParamForm.projectKeys).projects with
      | cons p ps =>
        have he : get_project_issue_types cache provider pk
            = ⟨.ok p.issuetypes, (pk, p.issuetypes) :: cache, [.projectKeys]⟩ := by
          simp only [get_project_issue_types, hc]
          rw [if_neg h1, hp1]
        rw [he] at hv
        have hw : p.issuetypes = v := Except.ok.inj hv
        subst hw
        rw [he]
        simp [cache_lookup]
      | nil =>
        by_cases h2 : (provider ParamForm.projectKey).status ≠ 200
        · have he : get_project_issue_types cache provider pk
              = ⟨.error (.metadataUnavailable (provider ParamForm.projectKey).status
                  ("Failed to fetch issue types: " ++ (provider ParamForm.projectKey).text)),
                 cache, [.projectKeys, .projectKey]⟩ := by
            simp only [get_project_issue_types, hc]
            rw [if_neg h1, hp1, if_pos h2]
          rw [he] at hv
          exact absurd hv (by simp)
        · cases hp2 : (provider ParamForm.projectKey).projects with
          | cons p ps =>
            have he : get_project_issue_types cache provider pk
                = ⟨.ok p.issuetypes, (pk, p.issuetypes) :: cache,
                   [.projectKeys, .projectKey]⟩ := by
              simp only [get_project_issue_types, hc]
              rw [if_neg h1, hp1, if_neg h2, hp2]
            rw [he] at hv
            have hw : p.issuetypes = v := Except.ok.inj hv
            subst hw
            rw [he]
            simp [cache_lookup]
          | nil =>
            have he : get_project_issue_types cache provider pk
                = ⟨.error (.projectNotFound pk), cache,
                   [.projectKeys, .projectKey]⟩ := by
              simp only [get_project_issue_types, hc]
              rw [if_neg h1, hp1, if_neg h2, hp2]
            rw [he] at hv
            exact absurd hv (by simp)

/-- Claim C8: a cache hit answers without a remote call; on a miss the plural
`projectKeys` form is queried first, a 200 answer without a project
entry triggers exactly one retry with the singular `projectKey` form, a
still-empty answer fails with `ProjectNotFound`, a non-200 status on
either attempt fails with `MetadataUnavailable` carrying that status and
message, a first-attempt success stores the first project's issue types,
and after any success the list is in the cache so that every later call
for the key answers it from the cache with no remote call. -/
theorem claim_C8_metadata_cache (cache : IssueTypeCache)
    (provider : ParamForm → MetaResponse) (pk : String) :
    (∀ v, cache_lookup cache pk = some v →
        get_project_issue_types cache provider pk = ⟨.ok v, cache, []⟩)
    ∧ (cache_lookup cache pk = none →
       ((provider ParamForm.projectKeys).status ≠ 200 →
          get_project_issue_types cache provider pk
            = ⟨.error (.metadataUnavailable (provider ParamForm.projectKeys).status
                ("Failed to fetch issue types: "
                  ++ (provider ParamForm.projectKeys).text)),
               cache, [.projectKeys]⟩)
       ∧ ((provider ParamForm.projectKeys).status = 200 →
          (provider ParamForm.projectKeys).projects = [] →
          (get_project_issue_types cache provider pk).calls
              = [.projectKeys, .projectKey]
          ∧ ((provider ParamForm.projectKey).status ≠ 200 →
              (get_project_issue_types cache provider pk).result
                = .error (.metadataUnavailable (provider ParamForm.projectKey).status
                    ("Failed to fetch issue types: "
                      ++ (provider ParamForm.projectKey).text)))
          ∧ ((provider ParamForm.projectKey).status = 200 →
             (provider ParamForm.projectKey).projects = [] →
             (get_project_issue_types cache provider pk).result
               = .error (.projectNotFound pk)))
       ∧ (∀ p ps, (provider ParamForm.projectKeys).status = 200 →
          (provider ParamForm.projectKeys).projects = p :: ps →
          get_project_issue_types cache provider pk
            = ⟨.ok p.issuetypes, (pk, p.issuetypes) :: cache, [.projectKeys]⟩))
    ∧ (∀ v, (get_project_issue_types cache provider pk).result = .ok v →
        cache_lookup (get_project_issue_types cache provider pk).cacheAfter pk
            = some v
        ∧ ∀ provider2 : ParamForm → MetaResponse,
            get_project_issue_types
                (get_project_issue_types cache provider pk).cacheAfter provider2 pk
              = ⟨.ok v, (get_project_issue_types cache provider pk).cacheAfter, []⟩) := by
  refine ⟨fun v hv => get_project_issue_types_hit hv provider, ?_, ?_⟩
  · intro hmiss
    refine ⟨?_, ?_, ?_⟩
    · intro h1
      simp only [get_project_issue_types, hmiss]
      rw [if_pos h1]
    · intro h200 hproj
      have hred : get_project_issue_types cache provider pk
          = (if (provider ParamForm.projectKey).status ≠ 200 then
              ⟨.error (.metadataUnavailable (provider ParamForm.projectKey).status
                  ("Failed to fetch issue types: "
                    ++ (provider ParamForm.projectKey).text)),
                cache, [.projectKeys, .projectKey]⟩
             else
              match (provider ParamForm.projectKey).projects with
              | p :: _ =>
                ⟨.ok p.issuetypes, (pk, p.issuetypes) :: cache,
                  [.projectKeys, .projectKey]⟩
              | [] =>
                ⟨.error (.projectNotFound pk), cache,
                  [.projectKeys, .projectKey]⟩) := by
        simp only [get_project_issue_types, hmiss]
        rw [if_neg (not_not_intro h200), hproj]
      refine ⟨?_, ?_, ?_⟩
      · rw [hred]
        by_cases h2 : (provider ParamForm.projectKey).status ≠ 200
        · rw [if_pos h2]
        · rw [if_neg h2]
          cases hp2 : (provider ParamForm.projectKey).projects with
          | nil => rfl
          | cons p ps => rfl
      · intro h2
        rw [hred, if_pos h2]
      · intro h2 hproj2
        rw [hred, if_neg (not_not_intro h2), hproj2]
    · intro p ps h200 hproj
      simp only [get_project_issue_types, hmiss]
      rw [if_neg (not_not_intro h200), hproj]
  · intro v hv
    exact ⟨get_project_issue_types_ok_inv hv,
      fun provider2 => get_project_issue_types_hit (get_project_issue_types_ok_inv hv)
        provider2⟩

/-- Provider used by the C8 witness: both query forms answer 200 with an
empty `projects` list. -/
def c8_provider_empty : ParamForm → MetaResponse := fun _ => ⟨200, "", []⟩

/-- Closed instance of the C8 theorem: on a fresh cache the empty-answer
provider is called with both parameter forms and resolution fails with
`ProjectNotFound`. -/
theorem claim_C8_witness :
    (get_project_issue_types ([] : IssueTypeCache) c8_provider_empty "PROJ").calls
        = [ParamForm.projectKeys, ParamForm.projectKey]
    ∧ (get_project_issue_types ([] : IssueTypeCache) c8_provider_empty "PROJ").result
        = .error (.projectNotFound "PROJ") :=
  ⟨(((claim_C8_metadata_cache ([] : IssueTypeCache) c8_provider_empty "PROJ").2.1
      rfl).2.1 rfl rfl).1,
   (((claim_C8_metadata_cache ([] : IssueTypeCache) c8_provider_empty "PROJ").2.1
      rfl).2.1 rfl rfl).2.2 rfl rfl⟩

/-- Claim C10: `create_issue` defaults its issue type to `"Task"` and its
priority to `"Medium"`, the route substitutes the same defaults when the
parsed record omits the fields, both defaults are non-empty strings, and
with them the resolvers take the requested-string path, never the
absent-request branches. -/
theorem claim_C10_default_requests :
    (default_issue_type = "Task" ∧ default_priority = "Medium")
    ∧ (∀ (env : CreateIssueEnv) (cache : IssueTypeCache) (pk s d : String),
        create_issue_fields_app env cache pk s d
          = create_issue_fields_app env cache pk s d default_issue_type
              default_priority none none none
        ∧ create_issue_fields_ja env cache pk s d
          = create_issue_fields_ja env cache pk s d default_issue_type
              default_priority none none none)
    ∧ (∀ td : ParsedTaskData, td.issue_type = none →
        route_issue_type td = default_issue_type)
    ∧ (∀ td : ParsedTaskData, td.priority = none →
        route_priority td = default_priority)
    ∧ (pyFalsy (some default_issue_type) = false
       ∧ pyFalsy (some default_priority) = false)
    ∧ (∀ available : List IssueTypeDescriptor,
        resolve_issue_type_payload available (some default_issue_type)
          = resolve_issue_type_requested available default_issue_type)
    ∧ (∀ fields : FieldSchema,
        resolve_priority_payload (.ok fields) (some default_priority)
          = .ok (resolve_priority_requested fields default_priority)) := by
  refine ⟨⟨rfl, rfl⟩, fun env cache pk s d => ⟨rfl, rfl⟩, ?_, ?_, ⟨rfl, rfl⟩, ?_, ?_⟩
  · intro td h
    simp [route_issue_type, h]
  · intro td h
    simp [route_priority, h]
  · intro available
    exact resolve_issue_type_payload_requested available (by decide)
  · intro fields
    exact resolve_priority_payload_requested fields (by decide)

/-- Closed instance of the C10 theorem: a parsed record with both fields
absent routes to the literal defaults, and the issue-type resolver takes
the requested path for `"Task"`. -/
theorem claim_C10_witness :
    route_issue_type ⟨none, none, none, none, none, none, none⟩ = default_issue_type
    ∧ route_priority ⟨none, none, none, none, none, none, none⟩ = default_priority
    ∧ resolve_issue_type_payload [] (some default_issue_type)
        = resolve_issue_type_requested [] default_issue_type :=
  ⟨claim_C10_default_requests.2.2.1 ⟨none, none, none, none, none, none, none⟩ rfl,
   claim_C10_default_requests.2.2.2.1 ⟨none, none, none, none, none, none, none⟩ rfl,
   claim_C10_default_requests.2.2.2.2.2.1 []⟩

